import Mathlib

/-! Shallow embedding of the browser-extension popup logic of the HR portal.
The repository carries three near-duplicate variants of the same script: the
named file popup.js and two unnamed files, called part000 and part001 below.
JavaScript millisecond timestamps are modelled as integers; the local time
zone is modelled as a fixed offset from UTC in milliseconds, so the JS
calendar-date operations (toDateString, setHours) become exact integer
arithmetic. Storage values that may be absent are modelled as Option. -/

namespace HRPortal

/-- Punch event direction, the JS strings "in" and "out". -/
inductive PType where
  | pin
  | pout
deriving DecidableEq, BEq, Repr

/-- One attendance history entry: the JS object with fields type and timestamp. -/
structure Entry where
  type : PType
  timestamp : Int
deriving DecidableEq, BEq, Repr

/-- Stored user profile, the object written under the user key. -/
structure UserRec where
  name : String
  email : String
deriving DecidableEq, Repr

/-- Saved credentials stored under the savedCreds key. -/
structure Creds where
  email : String
  password : String
deriving DecidableEq, Repr

/-- The chrome.storage.local keys the popup uses (theme omitted: no claim
touches it). A value of none models an absent key. -/
structure Storage where
  token : Option String
  user : Option UserRec
  punchInTime : Option Int
  history : List Entry
  savedCreds : Option Creds
deriving DecidableEq, Repr

/-- JS truthiness of a possibly absent string: undefined and "" are falsy. -/
def jsTruthyStr : Option String → Bool
  | some s => s != ""
  | none => false

/-- JS truthiness of a possibly absent number: undefined and 0 are falsy
(stored values are integers, so NaN does not arise in storage). -/
def jsTruthyTime : Option Int → Bool
  | some t => t != 0
  | none => false

/-- Milliseconds per calendar day. -/
def dayMs : Int := 86400000

/-- Epoch milliseconds of local midnight of the day containing t, for a fixed
local-time offset tz in milliseconds east of UTC; models new Date(t) with the
time-of-day fields cleared. Int division here is Euclidean and the divisor is
positive, so it floors. -/
def localMidnight (tz t : Int) : Int := dayMs * ((t + tz) / dayMs) - tz

/-- Two instants fall on the same local calendar date: the comparison
new Date(a).toDateString() === new Date(b).toDateString(). -/
def sameLocalDay (tz a b : Int) : Bool := (a + tz) / dayMs == (b + tz) / dayMs

/-- Numeric value of a decimal digit character. -/
def digitVal (c : Char) : Nat := c.toNat - 48

/-- Character-level test for string.includes with a one-character needle. -/
def hasChar (c : Char) (s : String) : Bool := s.data.any (fun a => a = c)

/-- JS String.prototype.trim: drop whitespace from both ends. -/
def jsTrim (s : String) : String :=
  ⟨((s.data.dropWhile Char.isWhitespace).reverse.dropWhile Char.isWhitespace).reverse⟩

/-- Result of the regular expression used by fetchStatus on the server time
string, with groups hours, minutes, seconds and an optional meridiem group;
modifier is none when the group is absent, some false for AM, some true
for PM. -/
structure TimeMatch where
  hours : Nat
  minutes : Nat
  seconds : Nat
  modifier : Option Bool
deriving DecidableEq, Repr

/-- Greedy match of one or two decimal digits, backtracking to a single digit
when the continuation fails, as a regex engine does for a d-1-2 quantifier. -/
def take12 (cs : List Char) (k : Nat → List Char → Option TimeMatch) : Option TimeMatch :=
  match cs with
  | [] => none
  | [c] => if c.isDigit then k (digitVal c) [] else none
  | c1 :: c2 :: rest =>
    if c1.isDigit then
      if c2.isDigit then
        match k (digitVal c1 * 10 + digitVal c2) rest with
        | some m => some m
        | none => k (digitVal c1) (c2 :: rest)
      else k (digitVal c1) (c2 :: rest)
    else none

/-- Require a colon at the head of the input, then continue. -/
def colonThen (cs : List Char) (k : List Char → Option TimeMatch) : Option TimeMatch :=
  match cs with
  | c :: rest => if c = ':' then k rest else none
  | [] => none

/-- Drop leading whitespace, as the regex whitespace star does. -/
def skipWs : List Char → List Char
  | c :: rest => if c.isWhitespace then skipWs rest else c :: rest
  | [] => []

/-- Case-insensitive AM or PM exactly at the head of the input, as the optional
meridiem alternation with the ignore-case flag; none when absent. -/
def readAmPm : List Char → Option Bool
  | a :: m :: _ =>
    if (a = 'A' || a = 'a') && (m = 'M' || m = 'm') then some false
    else if (a = 'P' || a = 'p') && (m = 'M' || m = 'm') then some true
    else none
  | _ => none

/-- Attempt the whole time pattern anchored at the current position. -/
def matchTimeAt (cs : List Char) : Option TimeMatch :=
  take12 cs (fun h cs1 => colonThen cs1 (fun cs2 =>
    take12 cs2 (fun m cs3 => colonThen cs3 (fun cs4 =>
      take12 cs4 (fun s cs5 => some ⟨h, m, s, readAmPm (skipWs cs5)⟩)))))

/-- Leftmost match of the time pattern in the string, as String.prototype.match
returns for an unanchored regex. -/
def findTimeMatch : List Char → Option TimeMatch
  | [] => none
  | c :: rest =>
    match matchTimeAt (c :: rest) with
    | some m => some m
    | none => findTimeMatch rest

/-- The meridiem adjustment in fetchStatus: PM adds 12 to hours below 12 and
12 AM becomes hour 0. -/
def adjustHours (h : Nat) : Option Bool → Nat
  | some true => if h < 12 then h + 12 else h
  | some false => if h = 12 then 0 else h
  | none => h

/-- today.setHours(h, m, s, 0) on the current date: local midnight plus the
given components, out-of-range values carrying over exactly as JS normalises
them. -/
def setHoursMs (tz now : Int) (h m s : Nat) : Int :=
  localMidnight tz now + ((h : Int) * 3600000 + (m : Int) * 60000 + (s : Int) * 1000)

/-- The colon branch of the fetchStatus parser: the regex result converted
with parseInt and today.setHours; none models the parsedTime variable staying
undefined when the regex does not match. -/
def regexParsedTime (tz now : Int) (s : String) : Option Int :=
  match findTimeMatch s.data with
  | some m => some (setHoursMs tz now (adjustHours m.hours m.modifier) m.minutes m.seconds)
  | none => none

/-- part000 fetchStatus parse of the server string: strings containing a colon
go through the time regex against the current date; other strings go through
new Date(string).getTime(), modelled by the parameter jsDate with none for a
NaN result. -/
def part000_parseServer (jsDate : String → Option Int) (tz now : Int) (s : String) : Option Int :=
  if hasChar ':' s then regexParsedTime tz now s else jsDate s

/-- popup.js fetchStatus parse of the server string: only strings containing a
colon are attempted; anything else leaves parsedTime undefined. -/
def popup_parseServer (tz now : Int) (s : String) : Option Int :=
  if hasChar ':' s then regexParsedTime tz now s else none

/-- The fields of the GET user-status response as fetchStatus reads them,
together with the response.ok flag. -/
structure StatusResp where
  ok : Bool
  isPunchedIn : Bool
  punchInTime : Option String
deriving Repr

/-- Effect of a fetchStatus run on the repeating display timer. -/
inductive TimerEff where
  | started (t : Int)
  | stopped
  | untouched
deriving DecidableEq, Repr

/-- Observable outcome of one fetchStatus run: the stored state afterwards,
the timer effect, and the updatePunchUI call with its active flag and start
time, none when the UI was not updated. -/
structure StatusOut where
  store : Storage
  timer : TimerEff
  ui : Option (Bool × Option Int)
deriving Repr

/-- The punched-in branch of part000 fetchStatus: keep a truthy local value;
otherwise adopt a truthy parsed server value and persist it; otherwise persist
Date.now() as the declared fallback. Returns the storage afterwards and the
start time handed to the timer and the UI. -/
def part000_punchedIn (jsDate : String → Option Int) (tz now : Int)
    (st : Storage) (server : Option String) : Storage × Int :=
  let s0 := st.punchInTime
  let step1 : Storage × Option Int :=
    if !jsTruthyTime s0 && jsTruthyStr server then
      match part000_parseServer jsDate tz now (server.getD "") with
      | some v => if v != 0 then ({ st with punchInTime := some v }, some v) else (st, s0)
      | none => (st, s0)
    else (st, s0)
  if !jsTruthyTime step1.2 then ({ step1.1 with punchInTime := some now }, now)
  else (step1.1, step1.2.getD 0)

/-- part000 fetchStatus, the variant that never clears punch state during a
sync: when the server reports not punched in but a truthy local punchInTime
exists, the local state is kept and the UI stays punched in. -/
def part000_fetchStatus (jsDate : String → Option Int) (tz now : Int)
    (resp : StatusResp) (st : Storage) : StatusOut :=
  if resp.ok then
    if resp.isPunchedIn then
      let r := part000_punchedIn jsDate tz now st resp.punchInTime
      ⟨r.1, .started r.2, some (true, some r.2)⟩
    else
      if jsTruthyTime st.punchInTime then
        ⟨st, .started (st.punchInTime.getD 0), some (true, some (st.punchInTime.getD 0))⟩
      else
        ⟨st, .stopped, some (false, none)⟩
  else ⟨st, .untouched, none⟩

/-- The punched-in branch of popup.js fetchStatus: when no truthy local value
exists and the server sent a truthy string, parsedTime with Date.now() as the
falsy fallback is stored; without a truthy server string nothing is stored. -/
def popup_punchedIn (tz now : Int) (st : Storage) (server : Option String) :
    Storage × Option Int :=
  let s0 := st.punchInTime
  if !jsTruthyTime s0 && jsTruthyStr server then
    let start :=
      match popup_parseServer tz now (server.getD "") with
      | some v => if v != 0 then v else now
      | none => now
    ({ st with punchInTime := some start }, some start)
  else (st, s0)

/-- popup.js fetchStatus, the variant that removes the stored punchInTime and
shows the punched-out UI whenever the server reports not punched in. -/
def popup_fetchStatus (tz now : Int) (resp : StatusResp) (st : Storage) : StatusOut :=
  if resp.ok then
    if resp.isPunchedIn then
      let r := popup_punchedIn tz now st resp.punchInTime
      if jsTruthyTime r.2 then ⟨r.1, .started (r.2.getD 0), some (true, some (r.2.getD 0))⟩
      else ⟨r.1, .untouched, none⟩
    else ⟨{ st with punchInTime := none }, .stopped, some (false, none)⟩
  else ⟨st, .untouched, none⟩

/-- Network requests the popup can issue. -/
inductive Request where
  | loginReq (email password : String)
  | logoutReq
  | punchAction (t : PType) (timestampSec : Int)
deriving DecidableEq, BEq, Repr

/-- The two views of the popup. -/
inductive View where
  | loginView
  | dashboardView
deriving DecidableEq, Repr

/-- Outcome of the guard phase of handlePunch, before any network activity. -/
inductive PunchStep where
  | offline
  | noToken
  | refusedShift
  | refusedMinStay (remainingMins : Int)
  | sendRequest (t : PType) (timestampSec : Int)
deriving DecidableEq, Repr

/-- Two hours in milliseconds, the PUNCH_DELAY_MS constant. -/
def PUNCH_DELAY_MS : Int := 7200000

/-- JS Math.ceil(a / b) for integers; used only with positive b, where the
Euclidean division of the negated numerator yields the exact ceiling. -/
def jsCeilDiv (a b : Int) : Int := -((-a) / b)

/-- JS Math.floor(a / b) for integers and positive b. -/
def jsFloorDiv (a b : Int) : Int := a / b

/-- The history.some check of handlePunch: some entry has type out and its
timestamp falls on the current calendar date. -/
def hasOutToday (tz now : Int) (history : List Entry) : Bool :=
  history.any (fun e => e.type == PType.pout && sameLocalDay tz e.timestamp now)

/-- Result of one handlePunch invocation up to the decision to send the punch
request: the guard outcome, the storage afterwards, and the network requests
issued during the guard phase. -/
structure PunchOut where
  step : PunchStep
  store : Storage
  requests : List Request
deriving Repr

/-- handlePunch of popup.js (identical guards in all three variants): offline
guard, token guard (handleLogout on a falsy token, which in popup.js removes
token, user and punchInTime and issues no request since the token is falsy),
single-shift-per-day guard, two-hour minimum-stay guard, then the punch
request whose type is out when the stored punchInTime is truthy and in
otherwise, with the timestamp in floored epoch seconds. -/
def popup_handlePunch (tz now : Int) (online : Bool) (st : Storage) : PunchOut :=
  if !online then ⟨.offline, st, []⟩
  else if !jsTruthyStr st.token then
    ⟨.noToken, { st with token := none, user := none, punchInTime := none }, []⟩
  else
    let isPunchedIn := jsTruthyTime st.punchInTime
    let t := st.punchInTime.getD 0
    if !isPunchedIn && hasOutToday tz now st.history then ⟨.refusedShift, st, []⟩
    else if isPunchedIn && decide (now - t < PUNCH_DELAY_MS) then
      ⟨.refusedMinStay (jsCeilDiv (PUNCH_DELAY_MS - (now - t)) 60000), st, []⟩
    else
      let pt := if isPunchedIn then PType.pout else PType.pin
      ⟨.sendRequest pt (jsFloorDiv now 1000), st, [.punchAction pt (jsFloorDiv now 1000)]⟩

/-- Result of handleLogout: storage afterwards, requests issued, the view
shown, and the fact that the timer was stopped. -/
structure LogoutOut where
  store : Storage
  requests : List Request
  view : View
deriving Repr

/-- handleLogout of popup.js: a logout request when the token is truthy, then
targeted removal of token, user and punchInTime, and the login view. -/
def popup_handleLogout (st : Storage) : LogoutOut :=
  { store := { st with token := none, user := none, punchInTime := none }
    requests := if jsTruthyStr st.token then [Request.logoutReq] else []
    view := View.loginView }

/-- handleLogout of part000: with preservePunch only token and user are
removed, so punchInTime survives; otherwise punchInTime is removed too. -/
def part000_handleLogout (preservePunch : Bool) (st : Storage) : LogoutOut :=
  { store :=
      if preservePunch then { st with token := none, user := none }
      else { st with token := none, user := none, punchInTime := none }
    requests := if jsTruthyStr st.token then [Request.logoutReq] else []
    view := View.loginView }

/-- handleLogout of part001: chrome.storage.local.clear() wipes every key. -/
def part001_handleLogout (st : Storage) : LogoutOut :=
  { store := ⟨none, none, none, [], none⟩
    requests := if jsTruthyStr st.token then [Request.logoutReq] else []
    view := View.loginView }

/-- What an apiFetch call amounted to. -/
inductive ApiOutcome where
  | thrownNoToken
  | thrownSessionExpired
  | passed (status : Nat)
deriving DecidableEq, Repr

/-- Observable result of apiFetch applied to a response with a given HTTP
status: storage afterwards, the view when a forced logout happened, and the
outcome returned or thrown to the caller. -/
structure ApiOut where
  store : Storage
  view : Option View
  outcome : ApiOutcome
deriving Repr

/-- apiFetch of popup.js: a falsy stored token forces logout and throws; a 401
response forces logout, which here also wipes punchInTime, and throws Session
expired; any other status is handed back to the caller. -/
def popup_apiFetch (st : Storage) (status : Nat) : ApiOut :=
  if !jsTruthyStr st.token then
    ⟨(popup_handleLogout st).store, some View.loginView, .thrownNoToken⟩
  else if status == 401 then
    ⟨(popup_handleLogout st).store, some View.loginView, .thrownSessionExpired⟩
  else ⟨st, none, .passed status⟩

/-- apiFetch of part000: both forced-logout paths pass preservePunch, so the
stored punchInTime survives session expiry. -/
def part000_apiFetch (st : Storage) (status : Nat) : ApiOut :=
  if !jsTruthyStr st.token then
    ⟨(part000_handleLogout true st).store, some View.loginView, .thrownNoToken⟩
  else if status == 401 then
    ⟨(part000_handleLogout true st).store, some View.loginView, .thrownSessionExpired⟩
  else ⟨st, none, .passed status⟩

/-- apiFetch of part001: forced logout clears the whole storage. -/
def part001_apiFetch (st : Storage) (status : Nat) : ApiOut :=
  if !jsTruthyStr st.token then
    ⟨(part001_handleLogout st).store, some View.loginView, .thrownNoToken⟩
  else if status == 401 then
    ⟨(part001_handleLogout st).store, some View.loginView, .thrownSessionExpired⟩
  else ⟨st, none, .passed status⟩

/-- JS array.slice(-n): the suffix of at most n elements. -/
def sliceLast (n : Nat) (l : List Entry) : List Entry := l.drop (l.length - n)

/-- renderHistory: the sequence of entries shown, history.slice(-5).reverse(),
so at most five entries, in reverse storage order. -/
def renderHistory (h : List Entry) : List Entry := (sliceLast 5 h).reverse

/-- logActivity: append the new event, keep the last 20 entries, store that
snapshot and render it. Returns the storage and the rendered list. -/
def logActivity (now : Int) (t : PType) (st : Storage) : Storage × List Entry :=
  let appended := st.history ++ [⟨t, now⟩]
  let snapshot := sliceLast 20 appended
  ({ st with history := snapshot }, renderHistory snapshot)

/-- fetchHistory: on an ok response whose body carries a history array, the
array is rendered and stored exactly as received, with no truncation; none
models a missing history field. Returns the storage and the rendered list when
rendering happened. -/
def fetchHistory (ok : Bool) (serverHistory : Option (List Entry)) (st : Storage) :
    Storage × Option (List Entry) :=
  match ok, serverHistory with
  | true, some h => ({ st with history := h }, some (renderHistory h))
  | _, _ => (st, none)

/-- The JS interval environment: the ids of live intervals, the timerInterval
module variable, and a counter supplying fresh ids for setInterval. -/
structure TimerSys where
  live : List Nat
  handle : Option Nat
  next : Nat
deriving DecidableEq, Repr

/-- Initial environment: no live interval, timerInterval null. -/
def timerInit : TimerSys := ⟨[], none, 0⟩

/-- startTimer: clearInterval on the stored handle when one exists, then
setInterval creating a fresh live interval whose id is stored. -/
def startTimer (s : TimerSys) : TimerSys :=
  let c := match s.handle with
    | some id => { s with live := s.live.erase id }
    | none => s
  { live := c.live ++ [c.next], handle := some c.next, next := c.next + 1 }

/-- stopTimer: clearInterval on the stored handle and null the variable. -/
def stopTimer (s : TimerSys) : TimerSys :=
  let c := match s.handle with
    | some id => { s with live := s.live.erase id }
    | none => s
  { live := c.live, handle := none, next := c.next }

/-- Timer operations a popup session can perform. -/
inductive TimerOp where
  | start
  | stop
deriving DecidableEq, Repr

/-- Run a sequence of timer operations from a state. -/
def runTimerOps (ops : List TimerOp) (s : TimerSys) : TimerSys :=
  match ops with
  | [] => s
  | TimerOp.start :: rest => runTimerOps rest (startTimer s)
  | TimerOp.stop :: rest => runTimerOps rest (stopTimer s)

/-- The timer invariant: the live intervals are exactly what the stored handle
says, so at most one interval is ever live. -/
def TimerInv (s : TimerSys) : Prop :=
  s.live = s.handle.toList

/-- The fields of the login response body as handleLogin reads them. -/
structure LoginResp where
  ok : Bool
  token : Option String
  dataToken : Option String
  userName : Option String
  dataUserName : Option String
deriving Repr

/-- Observable result of handleLogin. -/
structure LoginOut where
  store : Storage
  requests : List Request
  view : Option View
deriving Repr

/-- The substring of a string before the first at sign: email.split at the at
sign, first element. -/
def emailLocalPart (s : String) : String := ⟨s.data.takeWhile (fun c => c != '@')⟩

/-- handleLogin: the trimmed email and the password must be nonempty; on an ok
response with a truthy token (result.token, else the nested data token),
savedCreds is written or actively removed according to the remember checkbox,
token and user are stored, the user name falling back through the two response
name fields to the email local part, and the dashboard is shown. -/
def handleLogin (st : Storage) (emailRaw password : String) (remember : Bool)
    (resp : LoginResp) : LoginOut :=
  let email := jsTrim emailRaw
  if email == "" || password == "" then ⟨st, [], none⟩
  else
    let tok : Option String :=
      if jsTruthyStr resp.token then resp.token
      else if jsTruthyStr resp.dataToken then resp.dataToken
      else none
    match resp.ok, tok with
    | true, some tk =>
      let name :=
        if jsTruthyStr resp.userName then resp.userName.getD ""
        else if jsTruthyStr resp.dataUserName then resp.dataUserName.getD ""
        else emailLocalPart email
      let st1 :=
        if remember then { st with savedCreds := some ⟨email, password⟩ }
        else { st with savedCreds := none }
      ⟨{ st1 with token := some tk, user := some ⟨name, email⟩ },
        [Request.loginReq email password], some View.dashboardView⟩
    | _, _ => ⟨st, [Request.loginReq email password], none⟩

/-- Days from the Unix epoch of a Gregorian civil date, by the standard
era-based civil-calendar computation. -/
def daysFromCivil (y m d : Int) : Int :=
  let y2 := if m ≤ 2 then y - 1 else y
  let era := y2 / 400
  let yoe := y2 - era * 400
  let mp := (m + 9) % 12
  let doy := (153 * mp + 2) / 5 + d - 1
  let doe := yoe * 365 + yoe / 4 - yoe / 100 + doy
  era * 146097 + doe - 719468

/-- Split a character list at every occurrence of the separator. -/
def splitAtChar (sep : Char) : List Char → List (List Char)
  | [] => [[]]
  | c :: rest =>
    if c = sep then [] :: splitAtChar sep rest
    else
      match splitAtChar sep rest with
      | h :: t => (c :: h) :: t
      | [] => [[c]]

/-- A nonempty all-digit character list read as a decimal number. -/
def digitsToNat (cs : List Char) : Option Nat :=
  if cs ≠ [] && cs.all Char.isDigit then
    some (cs.foldl (fun acc c => acc * 10 + digitVal c) 0)
  else none

/-- Epoch milliseconds denoted by an ISO datetime string of the shape
YYYY-MM-DDTHH:MM:SS, written to the specification notion of accepting ISO
datetimes; used only to compare the implementation against the specification
wording. -/
def isoDatetimeSpecMs (s : String) : Option Int :=
  match splitAtChar 'T' s.data with
  | [ds, ts] =>
    match splitAtChar '-' ds, splitAtChar ':' ts with
    | [ys, ms, dds], [hs, mins, ss] =>
      match digitsToNat ys, digitsToNat ms, digitsToNat dds,
          digitsToNat hs, digitsToNat mins, digitsToNat ss with
      | some y, some mo, some dd, some h, some mi, some sec =>
        some ((daysFromCivil y mo dd * 86400 + (h : Int) * 3600 + (mi : Int) * 60 + sec) * 1000)
      | _, _, _, _, _, _ => none
    | _, _ => none
  | _ => none

/-- A concrete stored state with a two-entry chronological history, used by
concrete instantiations. -/
def stHist2 : Storage :=
  ⟨some "T", none, none, [⟨PType.pin, 1⟩, ⟨PType.pout, 2⟩], none⟩

/-! Helper lemmas shared by the claim theorems. -/

/-- A positive stored timestamp is truthy. -/
theorem jsTruthyTime_of_pos {t : Int} (h : 0 < t) : jsTruthyTime (some t) = true := by
  simp [jsTruthyTime]
  omega

/-- A truthy optional string is present. -/
theorem exists_of_jsTruthyStr {o : Option String} (h : jsTruthyStr o = true) :
    ∃ s, o = some s := by
  cases o with
  | none => simp [jsTruthyStr] at h
  | some s => exact ⟨s, rfl⟩

/-- startTimer preserves the timer invariant. -/
theorem timerInv_startTimer {s : TimerSys} (h : TimerInv s) : TimerInv (startTimer s) := by
  unfold TimerInv at h ⊢
  unfold startTimer
  cases hh : s.handle with
  | none => rw [hh] at h; simp [hh, h]
  | some id => rw [hh] at h; simp [hh, h]

/-- stopTimer preserves the timer invariant. -/
theorem timerInv_stopTimer {s : TimerSys} (h : TimerInv s) : TimerInv (stopTimer s) := by
  unfold TimerInv at h ⊢
  unfold stopTimer
  cases hh : s.handle with
  | none => rw [hh] at h; simp [hh, h]
  | some id => rw [hh] at h; simp [hh, h]

/-- Any sequence of timer operations preserves the timer invariant. -/
theorem timerInv_run (ops : List TimerOp) (s : TimerSys) (h : TimerInv s) :
    TimerInv (runTimerOps ops s) := by
  induction ops generalizing s with
  | nil => exact h
  | cons op rest ih =>
    cases op with
    | start => exact ih _ (timerInv_startTimer h)
    | stop => exact ih _ (timerInv_stopTimer h)

/-! Claim C1. -/

/-- Claim C1 counterexample: in popup.js, a status sync in which the server
reports not punched in while a local punchInTime is stored removes the stored
punchInTime instead of leaving it unchanged. -/
theorem c1_counterexample :
    (⟨some "T", none, some 1711900000000, [], none⟩ : Storage).punchInTime
        = some 1711900000000 ∧
    (popup_fetchStatus 0 1711972800000 ⟨true, false, none⟩
        ⟨some "T", none, some 1711900000000, [], none⟩).store.punchInTime = none :=
  ⟨rfl, rfl⟩

/-- Claim C1 amended: in the part000 variant, a status sync in which the
server reports not punched in leaves the whole stored state (punchInTime
included) unchanged, and when a truthy local punchInTime exists the timer and
the UI keep showing punched in with that exact timestamp. -/
theorem c1_amended_sync_preserves_local (jsDate : String → Option Int) (tz now : Int)
    (resp : StatusResp) (st : Storage) (hok : resp.ok = true)
    (hnpi : resp.isPunchedIn = false) :
    (part000_fetchStatus jsDate tz now resp st).store = st ∧
    (∀ t, st.punchInTime = some t → 0 < t →
      (part000_fetchStatus jsDate tz now resp st).timer = TimerEff.started t ∧
      (part000_fetchStatus jsDate tz now resp st).ui = some (true, some t)) := by
  constructor
  · unfold part000_fetchStatus
    rw [hok, hnpi]
    cases h : jsTruthyTime st.punchInTime <;> simp [h]
  · intro t ht htpos
    unfold part000_fetchStatus
    rw [hok, hnpi]
    simp [ht, jsTruthyTime_of_pos htpos]

/-- Claim C1 witness: the amended theorem at a concrete punched-in state. -/
theorem c1_witness :
    (part000_fetchStatus (fun _ => none) 0 1711972800000 ⟨true, false, none⟩
        ⟨some "T", none, some 1711900000000, [], none⟩).store
      = ⟨some "T", none, some 1711900000000, [], none⟩ ∧
    (part000_fetchStatus (fun _ => none) 0 1711972800000 ⟨true, false, none⟩
        ⟨some "T", none, some 1711900000000, [], none⟩).timer
      = TimerEff.started 1711900000000 ∧
    (part000_fetchStatus (fun _ => none) 0 1711972800000 ⟨true, false, none⟩
        ⟨some "T", none, some 1711900000000, [], none⟩).ui
      = some (true, some 1711900000000) := by
  have h := c1_amended_sync_preserves_local (fun _ => none) 0 1711972800000
    ⟨true, false, none⟩ ⟨some "T", none, some 1711900000000, [], none⟩ rfl rfl
  exact ⟨h.1, (h.2 1711900000000 rfl (by decide)).1, (h.2 1711900000000 rfl (by decide)).2⟩

/-! Claim C2. -/

/-- Claim C2 counterexample: in popup.js, an authenticated call that receives
HTTP 401 wipes the stored punchInTime along with the session. -/
theorem c2_counterexample :
    (⟨some "T", some ⟨"A", "a@b.com"⟩, some 5, [], none⟩ : Storage).punchInTime = some 5 ∧
    (popup_apiFetch ⟨some "T", some ⟨"A", "a@b.com"⟩, some 5, [], none⟩ 401).store.punchInTime
      = none :=
  ⟨rfl, rfl⟩

/-- Claim C2 amended: in the part000 variant, an authenticated call that
receives HTTP 401 clears token and user, returns to the login view and throws
Session expired, while the stored punchInTime is left unchanged. -/
theorem c2_amended_401_preserves_punch (st : Storage) (htok : jsTruthyStr st.token = true) :
    (part000_apiFetch st 401).store.token = none ∧
    (part000_apiFetch st 401).store.user = none ∧
    (part000_apiFetch st 401).store.punchInTime = st.punchInTime ∧
    (part000_apiFetch st 401).view = some View.loginView ∧
    (part000_apiFetch st 401).outcome = ApiOutcome.thrownSessionExpired := by
  simp [part000_apiFetch, htok, part000_handleLogout]

/-- Claim C2 witness: the amended theorem at a concrete logged-in state. -/
theorem c2_witness :
    (part000_apiFetch ⟨some "T", some ⟨"A", "a@b.com"⟩, some 5, [], none⟩ 401).store.token
      = none ∧
    (part000_apiFetch ⟨some "T", some ⟨"A", "a@b.com"⟩, some 5, [], none⟩ 401).store.user
      = none ∧
    (part000_apiFetch ⟨some "T", some ⟨"A", "a@b.com"⟩, some 5, [], none⟩ 401).store.punchInTime
      = (⟨some "T", some ⟨"A", "a@b.com"⟩, some 5, [], none⟩ : Storage).punchInTime ∧
    (part000_apiFetch ⟨some "T", some ⟨"A", "a@b.com"⟩, some 5, [], none⟩ 401).view
      = some View.loginView ∧
    (part000_apiFetch ⟨some "T", some ⟨"A", "a@b.com"⟩, some 5, [], none⟩ 401).outcome
      = ApiOutcome.thrownSessionExpired :=
  c2_amended_401_preserves_punch ⟨some "T", some ⟨"A", "a@b.com"⟩, some 5, [], none⟩ rfl

/-! Claim C6. -/

/-- Claim C6 counterexample: fetchHistory writes the server history to storage
without truncation, so a 21-entry server list leaves 21 stored entries. -/
theorem c6_counterexample :
    (fetchHistory true (some (List.replicate 21 ⟨PType.pout, 0⟩))
        ⟨none, none, none, [], none⟩).1.history.length = 21 ∧
    ¬ (fetchHistory true (some (List.replicate 21 ⟨PType.pout, 0⟩))
        ⟨none, none, none, [], none⟩).1.history.length ≤ 20 := by
  have h : (fetchHistory true (some (List.replicate 21 ⟨PType.pout, 0⟩))
      ⟨none, none, none, [], none⟩).1.history.length = 21 := by
    simp [fetchHistory]
  exact ⟨h, by rw [h]; decide⟩

/-- Claim C6 amended: logActivity stores at most the 20 most recent entries (a
suffix of the appended history), while rendering shows at most the 5 most
recent stored entries, newest first when the stored history is chronologically
ordered. The fetchHistory write path is unbounded, as the counterexample
shows. -/
theorem c6_amended_history_bounds (st : Storage) (t : PType) (now : Int)
    (hsort : st.history.Pairwise (fun a b => a.timestamp ≤ b.timestamp)) :
    (logActivity now t st).1.history.length ≤ 20 ∧
    (logActivity now t st).1.history.IsSuffix (st.history ++ [⟨t, now⟩]) ∧
    (renderHistory st.history).reverse.IsSuffix st.history ∧
    (renderHistory st.history).length = min 5 st.history.length ∧
    (renderHistory st.history).Pairwise (fun a b => b.timestamp ≤ a.timestamp) := by
  refine ⟨?_, ?_, ?_, ?_, ?_⟩
  · simp [logActivity, sliceLast]
    omega
  · simpa [logActivity, sliceLast] using List.drop_suffix _ _
  · rw [renderHistory, List.reverse_reverse]
    exact List.drop_suffix _ _
  · simp [renderHistory, sliceLast]
    omega
  · rw [renderHistory, List.pairwise_reverse]
    exact hsort.sublist (List.drop_sublist _ _)

/-- Claim C6 witness: the amended theorem at a concrete two-entry history. -/
theorem c6_witness :
    (logActivity 3 PType.pout stHist2).1.history.length ≤ 20 ∧
    (logActivity 3 PType.pout stHist2).1.history.IsSuffix (stHist2.history ++ [⟨PType.pout, 3⟩]) ∧
    (renderHistory stHist2.history).reverse.IsSuffix stHist2.history ∧
    (renderHistory stHist2.history).length = min 5 stHist2.history.length ∧
    (renderHistory stHist2.history).Pairwise (fun a b => b.timestamp ≤ a.timestamp) :=
  c6_amended_history_bounds stHist2 PType.pout 3 (by decide)

/-! Claim C7. -/

/-- Claim C7: from the initial environment every sequence of startTimer and
stopTimer calls keeps the set of live intervals equal to what the stored
handle says (hence at most one live repeating timer), and from any state
satisfying that invariant starting the timer twice in succession leaves
exactly one live ticking interval. -/
theorem c7_single_live_timer :
    (∀ ops : List TimerOp, TimerInv (runTimerOps ops timerInit)) ∧
    (∀ s : TimerSys, TimerInv s → (startTimer (startTimer s)).live.length = 1) := by
  constructor
  · intro ops
    exact timerInv_run ops timerInit rfl
  · intro s hs
    have h2 := timerInv_startTimer (timerInv_startTimer hs)
    rw [TimerInv] at h2
    rw [h2]
    rfl

/-- Claim C7 witness: two successive startTimer calls from the initial
environment leave exactly one live interval. -/
theorem c7_witness : (startTimer (startTimer timerInit)).live.length = 1 :=
  c7_single_live_timer.2 timerInit rfl

/-! Claim C3. -/

/-- Claim C3: a punch attempt in a logged-in, online session with a stored
punch-in timestamp less than two hours old is refused client side: the guard
reports the minimum-stay refusal carrying the ceiling of the remaining
milliseconds over one minute, no network request is issued, and the stored
state is unchanged. The last two conjuncts pin the reported value as the exact
ceiling of the remaining time in minutes. -/
theorem c3_min_stay_refusal (tz now t : Int) (st : Storage)
    (htok : jsTruthyStr st.token = true) (hpt : st.punchInTime = some t)
    (htpos : 0 < t) (hlt : now - t < PUNCH_DELAY_MS) :
    (popup_handlePunch tz now true st).step
      = PunchStep.refusedMinStay (jsCeilDiv (PUNCH_DELAY_MS - (now - t)) 60000) ∧
    (popup_handlePunch tz now true st).store = st ∧
    (popup_handlePunch tz now true st).requests = [] ∧
    60000 * (jsCeilDiv (PUNCH_DELAY_MS - (now - t)) 60000 - 1) < PUNCH_DELAY_MS - (now - t) ∧
    PUNCH_DELAY_MS - (now - t) ≤ 60000 * jsCeilDiv (PUNCH_DELAY_MS - (now - t)) 60000 := by
  have hred : popup_handlePunch tz now true st
      = ⟨PunchStep.refusedMinStay (jsCeilDiv (PUNCH_DELAY_MS - (now - t)) 60000), st, []⟩ := by
    unfold popup_handlePunch
    simp [htok, hpt, jsTruthyTime_of_pos htpos, hlt]
  refine ⟨by rw [hred], by rw [hred], by rw [hred], ?_, ?_⟩ <;>
    · unfold jsCeilDiv PUNCH_DELAY_MS at *
      omega

/-- Claim C3 witness: one hour after a concrete punch-in, the attempt is
refused with 60 minutes remaining and no request. -/
theorem c3_witness :
    (popup_handlePunch 0 3601000 true ⟨some "T", none, some 1000, [], none⟩).step
      = PunchStep.refusedMinStay (jsCeilDiv (PUNCH_DELAY_MS - (3601000 - 1000)) 60000) ∧
    (popup_handlePunch 0 3601000 true ⟨some "T", none, some 1000, [], none⟩).store
      = ⟨some "T", none, some 1000, [], none⟩ ∧
    (popup_handlePunch 0 3601000 true ⟨some "T", none, some 1000, [], none⟩).requests = [] ∧
    60000 * (jsCeilDiv (PUNCH_DELAY_MS - (3601000 - 1000)) 60000 - 1)
      < PUNCH_DELAY_MS - (3601000 - 1000) ∧
    PUNCH_DELAY_MS - (3601000 - 1000)
      ≤ 60000 * jsCeilDiv (PUNCH_DELAY_MS - (3601000 - 1000)) 60000 :=
  c3_min_stay_refusal 0 3601000 1000 ⟨some "T", none, some 1000, [], none⟩
    rfl rfl (by decide) (by decide)

/-! Claim C4. -/

/-- Claim C4: a punch attempt in a logged-in, online session with no stored
punch-in timestamp, while the stored history has an entry of type out dated
today by calendar date, is refused client side: no network request is issued
and the stored state is unchanged. -/
theorem c4_single_shift_refusal (tz now : Int) (st : Storage)
    (htok : jsTruthyStr st.token = true) (hpt : st.punchInTime = none)
    (hout : ∃ e ∈ st.history, e.type = PType.pout ∧ sameLocalDay tz e.timestamp now = true) :
    (popup_handlePunch tz now true st).step = PunchStep.refusedShift ∧
    (popup_handlePunch tz now true st).store = st ∧
    (popup_handlePunch tz now true st).requests = [] := by
  have hhot : hasOutToday tz now st.history = true := by
    obtain ⟨e, he, h1, h2⟩ := hout
    unfold hasOutToday
    rw [List.any_eq_true]
    exact ⟨e, he, by rw [h1, h2]; decide⟩
  have hred : popup_handlePunch tz now true st = ⟨PunchStep.refusedShift, st, []⟩ := by
    unfold popup_handlePunch
    simp [htok, hpt, jsTruthyTime, hhot]
  exact ⟨by rw [hred], by rw [hred], by rw [hred]⟩

/-- Claim C4 witness: with a same-day out entry in history and no stored
punch-in time, the concrete attempt is refused with no request. -/
theorem c4_witness :
    (popup_handlePunch 0 1711972800000 true
        ⟨some "T", none, none, [⟨PType.pout, 1711930000000⟩], none⟩).step
      = PunchStep.refusedShift ∧
    (popup_handlePunch 0 1711972800000 true
        ⟨some "T", none, none, [⟨PType.pout, 1711930000000⟩], none⟩).store
      = ⟨some "T", none, none, [⟨PType.pout, 1711930000000⟩], none⟩ ∧
    (popup_handlePunch 0 1711972800000 true
        ⟨some "T", none, none, [⟨PType.pout, 1711930000000⟩], none⟩).requests = [] :=
  c4_single_shift_refusal 0 1711972800000
    ⟨some "T", none, none, [⟨PType.pout, 1711930000000⟩], none⟩ rfl rfl
    ⟨⟨PType.pout, 1711930000000⟩, List.mem_cons_self _ _, rfl, by decide⟩

/-! Claim C10. -/

/-- The guard phase of handlePunch either issues no request or issues exactly
one punch request whose type is decided by the truthiness of the stored
punchInTime. -/
theorem popup_handlePunch_requests (tz now : Int) (online : Bool) (st : Storage) :
    (popup_handlePunch tz now online st).requests = [] ∨
    (popup_handlePunch tz now online st).requests
      = [Request.punchAction (if jsTruthyTime st.punchInTime then PType.pout else PType.pin)
          (jsFloorDiv now 1000)] := by
  unfold popup_handlePunch
  cases honline : online with
  | false => simp
  | true =>
    cases htok : jsTruthyStr st.token with
    | false => simp
    | true =>
      cases hpi : jsTruthyTime st.punchInTime with
      | true =>
        by_cases hlt : now - st.punchInTime.getD 0 < PUNCH_DELAY_MS
        · simp [hpi, hlt]
        · simp [hpi, hlt]
      | false =>
        by_cases hos : hasOutToday tz now st.history = true
        · simp [hpi, hos]
        · simp [hpi, hos]

/-- Claim C10: whenever handlePunch issues a punch request, its type is out
exactly when a punch-in timestamp is stored locally (positive, as every stored
timestamp is) and in otherwise, and its timestamp is the floored epoch-second
clock reading; the decision consults no server-reported status, which does not
even appear among the inputs of the embedded guard phase. -/
theorem c10_request_type_from_local (tz now : Int) (online : Bool) (st : Storage)
    (hpos : ∀ t, st.punchInTime = some t → 0 < t) (p : PType) (ts : Int)
    (hmem : Request.punchAction p ts ∈ (popup_handlePunch tz now online st).requests) :
    (p = PType.pout ↔ st.punchInTime.isSome) ∧ ts = jsFloorDiv now 1000 := by
  rcases popup_handlePunch_requests tz now online st with h | h
  · rw [h] at hmem
    simp at hmem
  · rw [h, List.mem_singleton] at hmem
    obtain ⟨hp, hts⟩ := Request.punchAction.inj hmem
    subst hts
    refine ⟨?_, rfl⟩
    cases hpt : st.punchInTime with
    | none =>
      rw [hpt] at hp
      simp [jsTruthyTime] at hp
      subst hp
      simp
    | some t =>
      rw [hpt] at hp
      simp [jsTruthyTime_of_pos (hpos t hpt)] at hp
      subst hp
      simp

/-- Claim C10 witness: in a concrete punched-in state past the minimum stay,
the issued request has type out and the floored epoch-second timestamp. -/
theorem c10_witness :
    ((PType.pout = PType.pout) ↔
      (⟨some "T", none, some 1000, [], none⟩ : Storage).punchInTime.isSome) ∧
    (10000000 : Int) = jsFloorDiv 10000000000 1000 := by
  have hmem : Request.punchAction PType.pout 10000000 ∈
      (popup_handlePunch 0 10000000000 true ⟨some "T", none, some 1000, [], none⟩).requests := by
    have h : (popup_handlePunch 0 10000000000 true
        ⟨some "T", none, some 1000, [], none⟩).requests
        = [Request.punchAction PType.pout 10000000] := by decide
    rw [h]
    exact List.mem_singleton.mpr rfl
  exact c10_request_type_from_local 0 10000000000 true ⟨some "T", none, some 1000, [], none⟩
    (by intro t ht; injection ht with h; omega) PType.pout 10000000 hmem

/-! Claim C8. -/

/-- Claim C8: a successful login whose response carries a token but neither of
the two user-name fields persists a user record whose name is the substring of
the entered (trimmed) email before the first at sign, and whose email is the
trimmed entered email. -/
theorem c8_default_user_name (st : Storage) (emailRaw password : String) (remember : Bool)
    (resp : LoginResp) (hemail : jsTrim emailRaw ≠ "") (hpw : password ≠ "")
    (hok : resp.ok = true)
    (htok : (jsTruthyStr resp.token || jsTruthyStr resp.dataToken) = true)
    (hn1 : resp.userName = none) (hn2 : resp.dataUserName = none) :
    (handleLogin st emailRaw password remember resp).store.user
      = some ⟨emailLocalPart (jsTrim emailRaw), jsTrim emailRaw⟩ := by
  unfold handleLogin
  cases h1 : jsTruthyStr resp.token with
  | true =>
    obtain ⟨s1, hs1⟩ := exists_of_jsTruthyStr h1
    simp [hemail, hpw, hok, hn1, hn2, h1, hs1, jsTruthyStr]
  | false =>
    rw [h1] at htok
    simp only [Bool.false_or] at htok
    obtain ⟨s2, hs2⟩ := exists_of_jsTruthyStr htok
    have hne : s2 ≠ "" := by
      rw [hs2] at htok
      simpa [jsTruthyStr] using htok
    simp [hemail, hpw, hok, hn1, hn2, h1, hs2, hne, jsTruthyStr]

/-- Claim C8 witness: a concrete login response with a token and no user name
stores the email local part as the user name. -/
theorem c8_witness :
    (handleLogin ⟨none, none, none, [], none⟩ " jane@corp.com " "pw" false
        ⟨true, some "T1", none, none, none⟩).store.user
      = some ⟨emailLocalPart (jsTrim " jane@corp.com "), jsTrim " jane@corp.com "⟩ :=
  c8_default_user_name ⟨none, none, none, [], none⟩ " jane@corp.com " "pw" false
    ⟨true, some "T1", none, none, none⟩ (by decide) (by decide) rfl (by decide) rfl rfl

/-! Claim C9. -/

/-- Claim C9: a successful login with the remember-me checkbox unchecked
actively removes a previously stored savedCreds entry: afterwards the key is
absent. -/
theorem c9_savedCreds_removed (st : Storage) (emailRaw password : String)
    (resp : LoginResp) (c : Creds) (hprev : st.savedCreds = some c)
    (hemail : jsTrim emailRaw ≠ "") (hpw : password ≠ "") (hok : resp.ok = true)
    (htok : (jsTruthyStr resp.token || jsTruthyStr resp.dataToken) = true) :
    (handleLogin st emailRaw password false resp).store.savedCreds = none := by
  unfold handleLogin
  cases h1 : jsTruthyStr resp.token with
  | true =>
    obtain ⟨s1, hs1⟩ := exists_of_jsTruthyStr h1
    simp [hemail, hpw, hok, h1, hs1, jsTruthyStr]
  | false =>
    rw [h1] at htok
    simp only [Bool.false_or] at htok
    obtain ⟨s2, hs2⟩ := exists_of_jsTruthyStr htok
    have hne : s2 ≠ "" := by
      rw [hs2] at htok
      simpa [jsTruthyStr] using htok
    simp [hemail, hpw, hok, h1, hs2, hne, jsTruthyStr]

/-- Claim C9 witness: a concrete login without remember-me removes previously
saved credentials. -/
theorem c9_witness :
    (handleLogin ⟨none, none, none, [], some ⟨"old@x.com", "oldpw"⟩⟩ " jane@corp.com " "pw"
        false ⟨true, some "T1", none, none, none⟩).store.savedCreds = none :=
  c9_savedCreds_removed ⟨none, none, none, [], some ⟨"old@x.com", "oldpw"⟩⟩ " jane@corp.com "
    "pw" ⟨true, some "T1", none, none, none⟩ ⟨"old@x.com", "oldpw"⟩ rfl (by decide) (by decide)
    rfl (by decide)

/-! Claim C5. -/

/-- Claim C5 counterexample: the engine does not accept ISO datetimes. For the
ISO datetime string 2024-03-31T10:16:29 (epoch 1711880189000) received while
no local punchInTime exists, the part000 engine persists the time-of-day
reinterpreted against the current date 2024-04-01 (epoch 1711966589000), not
the instant the ISO datetime denotes. -/
theorem c5_counterexample :
    isoDatetimeSpecMs "2024-03-31T10:16:29" = some 1711880189000 ∧
    (part000_fetchStatus (fun _ => none) 0 1711972800000
        ⟨true, true, some "2024-03-31T10:16:29"⟩
        ⟨some "T", none, none, [], none⟩).store.punchInTime = some 1711966589000 ∧
    (1711966589000 : Int) ≠ 1711880189000 :=
  ⟨by decide, by decide, by decide⟩

/-- Claim C5 amended: when a status sync reports punched in and no local
punchInTime exists, the part000 engine extracts the first HH:MM:SS with an
optional meridiem from any nonempty server string containing a colon and
interprets it against the current date (so the date part of an ISO datetime is
ignored), persisting the nonzero result; when no such group matches, the
current time is persisted as the fallback. PM adds 12 to hours below 12 and
12 AM maps to hour 0. -/
theorem c5_amended_server_parse (jsDate : String → Option Int) (tz now : Int) (st : Storage)
    (s : String) (hnl : st.punchInTime = none) (hs : s ≠ "") (hc : hasChar ':' s = true) :
    (∀ h m sec md, findTimeMatch s.data = some ⟨h, m, sec, md⟩ →
        setHoursMs tz now (adjustHours h md) m sec ≠ 0 →
        (part000_fetchStatus jsDate tz now ⟨true, true, some s⟩ st).store.punchInTime
          = some (setHoursMs tz now (adjustHours h md) m sec) ∧
        (part000_fetchStatus jsDate tz now ⟨true, true, some s⟩ st).timer
          = TimerEff.started (setHoursMs tz now (adjustHours h md) m sec)) ∧
    (findTimeMatch s.data = none →
        (part000_fetchStatus jsDate tz now ⟨true, true, some s⟩ st).store.punchInTime
          = some now ∧
        (part000_fetchStatus jsDate tz now ⟨true, true, some s⟩ st).timer
          = TimerEff.started now) ∧
    (∀ h, h < 12 → adjustHours h (some true) = h + 12) ∧
    adjustHours 12 (some false) = 0 := by
  refine ⟨?_, ?_, ?_, by simp [adjustHours]⟩
  · intro h m sec md hm hv
    constructor <;>
      simp [part000_fetchStatus, part000_punchedIn, part000_parseServer, regexParsedTime,
        hnl, hs, hc, hm, hv, jsTruthyTime, jsTruthyStr]
  · intro hm
    constructor <;>
      simp [part000_fetchStatus, part000_punchedIn, part000_parseServer, regexParsedTime,
        hnl, hs, hc, hm, jsTruthyTime, jsTruthyStr]
  · intro h hh
    simp [adjustHours, hh]

/-- Claim C5 witness: the amended theorem at the concrete server string
10:16:29 PM with no local punch state. -/
theorem c5_witness :
    (part000_fetchStatus (fun _ => none) 0 1711972800000 ⟨true, true, some "10:16:29 PM"⟩
        ⟨some "T", none, none, [], none⟩).store.punchInTime
      = some (setHoursMs 0 1711972800000 (adjustHours 10 (some true)) 16 29) ∧
    (part000_fetchStatus (fun _ => none) 0 1711972800000 ⟨true, true, some "10:16:29 PM"⟩
        ⟨some "T", none, none, [], none⟩).timer
      = TimerEff.started (setHoursMs 0 1711972800000 (adjustHours 10 (some true)) 16 29) :=
  (c5_amended_server_parse (fun _ => none) 0 1711972800000 ⟨some "T", none, none, [], none⟩
      "10:16:29 PM" rfl (by decide) (by decide)).1 10 16 29 (some true) (by decide) (by decide)

end HRPortal
